import Mathlib

/-!
Verification of the Storage python-bridge (`torch/csrc/Storage.cpp`).

The development shallowly embeds the bridge between the intrusively
refcounted native resource (`c10::StorageImpl`, "Storage") and its
host-runtime (Python) wrapper objects:

* `BridgeState` models one native resource together with its per-resource
  `pyobj_slot` (the WrapperSlot): the native refcount (`use_count`), the
  slot's wrapper reference (`slotRef`), the `owns_pyobj` flag and a fresh
  allocation counter standing in for `tp_alloc` (object identity).
* `THPStorage_Wrap`, `THPStorage_NewWithStorage`,
  `THPStorage_isPreservable`, `THPStorage_tryPreserve` and
  `THPStorage_subclass_dealloc` are translated branch by branch from the
  source.  The embedding covers the non-hermetic path:
  `c10::impl::HermeticPyObjectTLS` is thread-local state of an external
  component and is modelled as disabled.
* Byte access (`THPStorage_get` / `THPStorage_set`), the slice view
  construction and sequence construction (`THPStorage_pynew`) are embedded
  over `List Nat` byte buffers.

Conventions: the host (Python) reference count of a wrapper is the
`refcnt` field; `use_count` counts strong native references, including the
`c10::Storage` argument a caller moves into `THPStorage_Wrap` and the
reference held by an Owned wrapper handle (`cdata`).
-/

/-- Mode of the wrapper's resource handle (`s->cdata : c10::MaybeOwned<c10::Storage>`):
`owned` holds a strong reference to the resource, `borrowed` merely observes it. -/
inductive Handle where
  | owned
  | borrowed
deriving DecidableEq, Repr

/-- A host wrapper object (`THPStorage`): its identity (`wid`, standing for the
`PyObject` address), its concrete Python type (`ty`), its resource handle mode and
its host-visible reference count (`ob_refcnt`). -/
structure Wrapper where
  wid : Nat
  ty : Nat
  handle : Handle
  refcnt : Nat
deriving DecidableEq, Repr

/-- Result of `pyobj_slot()->check_pyobj(getPyInterpreter())`:
`untagged` is `c10::nullopt` (slot never initialized for this interpreter),
`taggedNull` is `some nullptr`, and `live w` is `some w`. -/
inductive SlotRef where
  | untagged
  | taggedNull
  | live (w : Wrapper)
deriving DecidableEq, Repr

/-- State of one native resource and its wrapper slot. -/
structure BridgeState where
  use_count : Nat
  slotRef : SlotRef
  owns_pyobj : Bool
  nextId : Nat
deriving DecidableEq, Repr

/-- `c10::impl::PyInterpreterStatus`. -/
inductive InterpStatus where
  | DEFINITELY_UNINITIALIZED
  | TAGGED_BY_US
  | MAYBE_UNINITIALIZED
deriving DecidableEq, Repr

/-- Type environment: `isSubtype a b` models `PyType_IsSubtype(a, b)` (external,
CPython); `storageBase` is `THPStorageType` and `storageClass` the configured
`THPStorageClass` (`torch.UntypedStorage`). -/
structure TypeEnv where
  isSubtype : Nat → Nat → Bool
  storageBase : Nat
  storageClass : Nat

/-- Error outcomes of `THPStorage_NewWithStorage` (the `TORCH_CHECK`s). -/
inductive WrapErr where
  | notStorageSubclass
  | alreadyWrapped
  | alreadyWrappedIncompatible
deriving DecidableEq, Repr

/-- Result of a wrapping call: the returned wrapper's identity plus the updated
state, or a raised error. -/
inductive WrapResult where
  | ok (wid : Nat) (s : BridgeState)
  | err (e : WrapErr)
deriving DecidableEq, Repr

/-- Lines 67-84 of the source: `tp_alloc` a fresh wrapper of type `ty` (host
refcount 1), bind the caller's storage handle Owned into `cdata`, and register
the wrapper into the slot via `init_pyobj` with the supplied `status`.
The moved-in caller handle is transferred into `cdata`, so `use_count` is
unchanged; `status` is only read for diagnostics and is not stored. -/
def newWrapperAlloc (ty : Nat) (status : InterpStatus) (s : BridgeState) :
    Nat × BridgeState :=
  let _ := status
  (s.nextId,
   { use_count := s.use_count,
     slotRef := SlotRef.live { wid := s.nextId, ty := ty, handle := Handle.owned, refcnt := 1 },
     owns_pyobj := s.owns_pyobj,
     nextId := s.nextId + 1 })

/-- The fresh-allocation tail of `THPStorage_Wrap`: the call
`THPStorage_NewWithStorage(THPStorageClass, std::move(storage), status)` made when
the slot holds no live wrapper.  `THPStorage_NewWithStorage` first checks that the
requested type inherits from Storage and then, with no live wrapper in the slot,
falls through to the allocation path. -/
def wrapFresh (env : TypeEnv) (status : InterpStatus) (s : BridgeState) : WrapResult :=
  if env.isSubtype env.storageClass env.storageBase then
    let p := newWrapperAlloc env.storageClass status s
    WrapResult.ok p.1 p.2
  else WrapResult.err WrapErr.notStorageSubclass

/-- Lines 88-121 of the source (`THPStorage_Wrap`), non-hermetic path.  The slot
holds a live wrapper: if `owns_pyobj` is set, ownership flips (clear the flag,
rebind `cdata` Owned from the moved-in caller handle, return the wrapper without
`Py_INCREF`); otherwise `Py_INCREF` the wrapper and return it (the caller's moved-in
handle dies at scope exit, decrementing `use_count`).  Otherwise compute the
interpreter status (`use_count ≤ 1` means no other holder could race) and allocate. -/
def THPStorage_Wrap (env : TypeEnv) (s : BridgeState) : WrapResult :=
  match s.slotRef with
  | SlotRef.live w =>
      if s.owns_pyobj then
        WrapResult.ok w.wid
          { s with slotRef := SlotRef.live { w with handle := Handle.owned },
                   owns_pyobj := false }
      else
        WrapResult.ok w.wid
          { s with slotRef := SlotRef.live { w with refcnt := w.refcnt + 1 },
                   use_count := s.use_count - 1 }
  | SlotRef.taggedNull => wrapFresh env InterpStatus.TAGGED_BY_US s
  | SlotRef.untagged =>
      wrapFresh env
        (if s.use_count ≤ 1 then InterpStatus.DEFINITELY_UNINITIALIZED
         else InterpStatus.MAYBE_UNINITIALIZED) s

/-- Lines 33-85 of the source (`THPStorage_NewWithStorage`): check the requested
type inherits Storage; if the slot already holds a live wrapper, `TORCH_CHECK`
`allow_preexisting_pyobj`, then `TORCH_CHECK` that the existing wrapper's type
equals or is a subtype of the requested type, and reuse it via `THPStorage_Wrap`;
otherwise allocate a fresh wrapper of the requested type. -/
def THPStorage_NewWithStorage (env : TypeEnv) (ty : Nat) (s : BridgeState)
    (status : InterpStatus) (allow_preexisting_pyobj : Bool) : WrapResult :=
  if env.isSubtype ty env.storageBase then
    match s.slotRef with
    | SlotRef.live w =>
        if allow_preexisting_pyobj then
          if w.ty = ty ∨ env.isSubtype w.ty ty then THPStorage_Wrap env s
          else WrapResult.err WrapErr.alreadyWrappedIncompatible
        else WrapErr.alreadyWrapped |> WrapResult.err
    | _ =>
        let p := newWrapperAlloc ty status s
        WrapResult.ok p.1 p.2
  else WrapResult.err WrapErr.notStorageSubclass

/-- Coherence of the two entry points: on a slot without a live wrapper,
`THPStorage_Wrap` agrees with the `THPStorage_NewWithStorage` call it makes
(the slot is re-examined inside, unchanged in between). -/
theorem wrap_eq_newWithStorage_of_not_live (env : TypeEnv) (s : BridgeState)
    (status : InterpStatus)
    (h : s.slotRef = SlotRef.untagged ∨ s.slotRef = SlotRef.taggedNull) :
    wrapFresh env status s =
      THPStorage_NewWithStorage env env.storageClass s status false := by
  rcases h with h | h <;>
    simp [wrapFresh, THPStorage_NewWithStorage, h]

/-- C1: if the resource's WrapperSlot references a live wrapper, `wrap` returns
that same wrapper (identity-equal, no second allocation: the identity counter is
untouched); when `owns_pyobj` is set, ownership flips — the handle becomes Owned,
the flag is cleared and the host reference count is not incremented — otherwise
the host reference count is incremented by one. -/
theorem C1_wrap_reuses_live_wrapper (env : TypeEnv) (s : BridgeState) (w : Wrapper)
    (h : s.slotRef = SlotRef.live w) :
    ∃ s', THPStorage_Wrap env s = WrapResult.ok w.wid s' ∧
      s'.nextId = s.nextId ∧
      (s.owns_pyobj = true →
        s'.slotRef = SlotRef.live { w with handle := Handle.owned } ∧
        s'.owns_pyobj = false ∧
        ({ w with handle := Handle.owned } : Wrapper).refcnt = w.refcnt) ∧
      (s.owns_pyobj = false →
        s'.slotRef = SlotRef.live { w with refcnt := w.refcnt + 1 } ∧
        s'.owns_pyobj = false) := by
  cases hown : s.owns_pyobj <;>
    simp [THPStorage_Wrap, h, hown]

/-- Concrete instance for C1: a state whose slot holds a live wrapper with
`owns_pyobj` set; `wrap` flips ownership and returns the same wrapper. -/
def wC1 : Wrapper :=
  { wid := 7, ty := 1, handle := Handle.borrowed, refcnt := 1 }

/-- Concrete state for the C1 witness. -/
def sC1 : BridgeState :=
  { use_count := 2, slotRef := SlotRef.live wC1, owns_pyobj := true, nextId := 8 }

/-- Environment with base type 0, storage class 1 and one further subclass 2. -/
def env0 : TypeEnv :=
  { isSubtype := fun a b => a == b || (a == 1 && b == 0) || (a == 2 && b == 0),
    storageBase := 0,
    storageClass := 1 }

/-- Witness for C1 at the concrete state `sC1`. -/
theorem C1_wrap_reuses_live_wrapper_witness :
    sC1.slotRef = SlotRef.live wC1 ∧
    ∃ s', THPStorage_Wrap env0 sC1 = WrapResult.ok wC1.wid s' ∧
      s'.nextId = sC1.nextId ∧
      (sC1.owns_pyobj = true →
        s'.slotRef = SlotRef.live { wC1 with handle := Handle.owned } ∧
        s'.owns_pyobj = false ∧
        ({ wC1 with handle := Handle.owned } : Wrapper).refcnt = wC1.refcnt) ∧
      (sC1.owns_pyobj = false →
        s'.slotRef = SlotRef.live { wC1 with refcnt := wC1.refcnt + 1 } ∧
        s'.owns_pyobj = false) :=
  ⟨rfl, C1_wrap_reuses_live_wrapper env0 sC1 wC1 rfl⟩

/-- Slot identity check from `THPStorage_isPreservable`:
`check_pyobj(getPyInterpreter()) == c10::make_optional((PyObject*)self)` —
pointer identity of the slot's wrapper with `self`. -/
def slotHolds (s : BridgeState) (self : Wrapper) : Bool :=
  match s.slotRef with
  | SlotRef.live w => w.wid == self.wid
  | _ => false

/-- Lines 123-137 of the source (`THPStorage_isPreservable`): preservable iff the
resource handle is not Borrowed, the slot references exactly this wrapper, and the
resource's refcount is greater than one. -/
def THPStorage_isPreservable (self : Wrapper) (s : BridgeState) : Bool :=
  if self.handle = Handle.borrowed then false
  else if !slotHolds s self then false
  else if s.use_count ≤ 1 then false
  else true

/-- Lines 139-155 of the source (`THPStorage_tryPreserve`): if not preservable
return `false` unchanged; otherwise `TORCH_INTERNAL_ASSERT(!owns_pyobj())`
(modelled as the `Except.error` outcome), then set `owns_pyobj`, `Py_INCREF(self)`,
and rebind `cdata` from Owned to Borrowed — the assignment destroys the previously
Owned `c10::Storage`, releasing its strong reference (`use_count - 1`). -/
def THPStorage_tryPreserve (self : Wrapper) (s : BridgeState) :
    Except Unit (Bool × Wrapper × BridgeState) :=
  if THPStorage_isPreservable self s then
    if s.owns_pyobj then Except.error ()
    else
      let self' := { self with handle := Handle.borrowed, refcnt := self.refcnt + 1 }
      Except.ok (true, self',
        { s with owns_pyobj := true,
                 slotRef := SlotRef.live self',
                 use_count := s.use_count - 1 })
  else Except.ok (false, self, s)

/-- Characterization of `THPStorage_isPreservable` by the three preconditions of
the spec: handle Owned (not Borrowed), slot references exactly this wrapper, and
resource refcount greater than one. -/
theorem isPreservable_iff (self : Wrapper) (s : BridgeState) :
    THPStorage_isPreservable self s = true ↔
      (self.handle = Handle.owned ∧ slotHolds s self = true ∧ 1 < s.use_count) := by
  unfold THPStorage_isPreservable
  cases hh : self.handle <;> split_ifs <;> simp_all

/-- C3: `try_preserve` returns true iff all three preconditions hold (handle
Owned, slot references exactly this wrapper, resource refcount greater than one);
on success it sets `owns_pyobj`, increments the wrapper's host reference count by
exactly one and converts the handle from Owned to Borrowed; on any failed
precondition it returns false and changes nothing.  The `owns_pyobj = false`
hypothesis is the ownership-exclusivity invariant (C2), under which the internal
assertion cannot fire. -/
theorem C3_tryPreserve_iff (self : Wrapper) (s : BridgeState)
    (howns : s.owns_pyobj = false) :
    ∃ b self' s', THPStorage_tryPreserve self s = Except.ok (b, self', s') ∧
      (b = true ↔ (self.handle = Handle.owned ∧ slotHolds s self = true ∧
                   1 < s.use_count)) ∧
      (b = true →
        s'.owns_pyobj = true ∧
        self'.refcnt = self.refcnt + 1 ∧
        self.handle = Handle.owned ∧ self'.handle = Handle.borrowed ∧
        s'.slotRef = SlotRef.live self') ∧
      (b = false → self' = self ∧ s' = s) := by
  by_cases hp : THPStorage_isPreservable self s = true
  · refine ⟨true, { self with handle := Handle.borrowed, refcnt := self.refcnt + 1 },
      { s with owns_pyobj := true,
               slotRef := SlotRef.live
                 { self with handle := Handle.borrowed, refcnt := self.refcnt + 1 },
               use_count := s.use_count - 1 }, ?_, ?_, ?_, ?_⟩
    · simp [THPStorage_tryPreserve, hp, howns]
    · simpa using (isPreservable_iff self s).mp hp
    · intro _
      exact ⟨rfl, rfl, ((isPreservable_iff self s).mp hp).1, rfl, rfl⟩
    · simp
  · refine ⟨false, self, s, ?_, ?_, ?_, ?_⟩
    · simp [THPStorage_tryPreserve, hp]
    · rw [isPreservable_iff] at hp
      simpa using hp
    · simp
    · simp

/-- Concrete preservable instance for the C3 witness: an Owned wrapper registered
in the slot of a resource with refcount 2. -/
def wC3 : Wrapper :=
  { wid := 3, ty := 1, handle := Handle.owned, refcnt := 1 }

/-- Concrete state for the C3 witness. -/
def sC3 : BridgeState :=
  { use_count := 2, slotRef := SlotRef.live wC3, owns_pyobj := false, nextId := 4 }

/-- Witness for C3 at the concrete preservable state `sC3`. -/
theorem C3_tryPreserve_iff_witness :
    sC3.owns_pyobj = false ∧
    ∃ b self' s', THPStorage_tryPreserve wC3 sC3 = Except.ok (b, self', s') ∧
      (b = true ↔ (wC3.handle = Handle.owned ∧ slotHolds sC3 wC3 = true ∧
                   1 < sC3.use_count)) ∧
      (b = true →
        s'.owns_pyobj = true ∧
        self'.refcnt = wC3.refcnt + 1 ∧
        wC3.handle = Handle.owned ∧ self'.handle = Handle.borrowed ∧
        s'.slotRef = SlotRef.live self') ∧
      (b = false → self' = wC3 ∧ s' = sC3) :=
  ⟨rfl, C3_tryPreserve_iff wC3 sC3 rfl⟩

/-- Live wrapper of type 1 (the storage class itself) for the C6 counterexample. -/
def wC6 : Wrapper :=
  { wid := 2, ty := 1, handle := Handle.owned, refcnt := 1 }

/-- State for the C6 counterexample: slot occupied by `wC6`. -/
def sC6 : BridgeState :=
  { use_count := 2, slotRef := SlotRef.live wC6, owns_pyobj := false, nextId := 3 }

/-- C6 counterexample: the claim says the call fails only when the existing
wrapper's type is incompatible and succeeds (reusing) whenever
`allow_preexisting` is set.  The code diverges on both sides: with the existing
wrapper's type equal to the requested type but `allow_preexisting = false` the
call still fails, and with `allow_preexisting = true` but an incompatible
requested type (type 2, of which the existing type 1 is not a subtype) it also
fails — `allow_preexisting` does not make the requested type be ignored. -/
theorem C6_counterexample :
    sC6.slotRef = SlotRef.live wC6 ∧ wC6.ty = 1 ∧
    env0.isSubtype 1 env0.storageBase = true ∧
    env0.isSubtype 2 env0.storageBase = true ∧
    env0.isSubtype wC6.ty 2 = false ∧
    THPStorage_NewWithStorage env0 1 sC6 InterpStatus.TAGGED_BY_US false =
      WrapResult.err WrapErr.alreadyWrapped ∧
    THPStorage_NewWithStorage env0 2 sC6 InterpStatus.TAGGED_BY_US true =
      WrapResult.err WrapErr.alreadyWrappedIncompatible :=
  ⟨rfl, rfl, rfl, rfl, rfl, rfl, rfl⟩

/-- C6 (amended): when the slot already holds a live wrapper,
`new_with_resource` fails with an AlreadyWrapped-kind error unless
`allow_preexisting` is set, and even with `allow_preexisting` set it fails
unless the existing wrapper's concrete type is equal to or a subtype of the
requested type; when both conditions hold the existing wrapper is reused as-is
via `wrap` (identity preserved, requested type otherwise ignored). -/
theorem C6_amended_newWithStorage (env : TypeEnv) (ty : Nat) (s : BridgeState)
    (w : Wrapper) (status : InterpStatus) (allowPre : Bool)
    (h : s.slotRef = SlotRef.live w)
    (hbase : env.isSubtype ty env.storageBase = true) :
    (allowPre = false →
       THPStorage_NewWithStorage env ty s status allowPre =
         WrapResult.err WrapErr.alreadyWrapped) ∧
    (allowPre = true → ¬(w.ty = ty ∨ env.isSubtype w.ty ty = true) →
       THPStorage_NewWithStorage env ty s status allowPre =
         WrapResult.err WrapErr.alreadyWrappedIncompatible) ∧
    (allowPre = true → (w.ty = ty ∨ env.isSubtype w.ty ty = true) →
       ∃ s', THPStorage_NewWithStorage env ty s status allowPre =
               WrapResult.ok w.wid s' ∧
             THPStorage_Wrap env s = WrapResult.ok w.wid s') := by
  refine ⟨?_, ?_, ?_⟩
  · intro ha
    simp [THPStorage_NewWithStorage, h, hbase, ha]
  · intro ha hty
    simp [THPStorage_NewWithStorage, h, hbase, ha, hty]
  · intro ha hty
    obtain ⟨s', hs', -⟩ := C1_wrap_reuses_live_wrapper env s w h
    exact ⟨s', by simp [THPStorage_NewWithStorage, h, hbase, ha, hty, hs'], hs'⟩

/-- Witness for the amended C6 at concrete inputs: requesting type 0 (the base,
of which the existing type 1 is a subtype) with `allow_preexisting = true`
reuses the existing wrapper. -/
theorem C6_amended_newWithStorage_witness :
    sC6.slotRef = SlotRef.live wC6 ∧
    env0.isSubtype 0 env0.storageBase = true ∧
    ((false = false →
       THPStorage_NewWithStorage env0 0 sC6 InterpStatus.TAGGED_BY_US false =
         WrapResult.err WrapErr.alreadyWrapped) ∧
     (false = true → ¬(wC6.ty = 0 ∨ env0.isSubtype wC6.ty 0 = true) →
       THPStorage_NewWithStorage env0 0 sC6 InterpStatus.TAGGED_BY_US false =
         WrapResult.err WrapErr.alreadyWrappedIncompatible) ∧
     (false = true → (wC6.ty = 0 ∨ env0.isSubtype wC6.ty 0 = true) →
       ∃ s', THPStorage_NewWithStorage env0 0 sC6 InterpStatus.TAGGED_BY_US false =
               WrapResult.ok wC6.wid s' ∧
             THPStorage_Wrap env0 sC6 = WrapResult.ok wC6.wid s')) ∧
    ((true = false →
       THPStorage_NewWithStorage env0 0 sC6 InterpStatus.TAGGED_BY_US true =
         WrapResult.err WrapErr.alreadyWrapped) ∧
     (true = true → ¬(wC6.ty = 0 ∨ env0.isSubtype wC6.ty 0 = true) →
       THPStorage_NewWithStorage env0 0 sC6 InterpStatus.TAGGED_BY_US true =
         WrapResult.err WrapErr.alreadyWrappedIncompatible) ∧
     (true = true → (wC6.ty = 0 ∨ env0.isSubtype wC6.ty 0 = true) →
       ∃ s', THPStorage_NewWithStorage env0 0 sC6 InterpStatus.TAGGED_BY_US true =
               WrapResult.ok wC6.wid s' ∧
             THPStorage_Wrap env0 sC6 = WrapResult.ok wC6.wid s')) :=
  ⟨rfl, rfl,
   C6_amended_newWithStorage env0 0 sC6 wC6 InterpStatus.TAGGED_BY_US false rfl rfl,
   C6_amended_newWithStorage env0 0 sC6 wC6 InterpStatus.TAGGED_BY_US true rfl rfl⟩

/-- Host-type description used by `THPStorage_subclass_dealloc` (lines 157-245):
GC participation, finalizer hook (`tp_finalize`), legacy destructor hook
(`tp_del`), weak-reference list and instance-dict support, and the number of
subclass levels between the concrete type and `THPStorageType` that declare
extra instance slots. -/
structure TypeInfo where
  has_gc : Bool
  tp_finalize : Bool
  tp_del : Bool
  tp_weaklist : Bool
  tp_dictoffset : Bool
  slot_levels : Nat
deriving DecidableEq, Repr

/-- Observable actions of the teardown sequence, in source order:
`PyObject_GC_UnTrack`, `PyObject_GC_Track`, `PyObject_CallFinalizerFromDealloc`,
`PyObject_ClearWeakRefs`, `tp_del`, the no-callback clearing of weakrefs created
during a hook, `clear_slots` per subclass level, `__dict__` clearing, the
`cdata` destructor (which releases the Owned resource reference), `tp_free`,
and the `Py_DECREF` of the heap type. -/
inductive TDStep where
  | untrack
  | track
  | callFinalizer
  | clearWeakRefs
  | callDel
  | clearNewWeakRefs
  | clearSlots
  | clearDict
  | destroyHandle
  | freeMem
  | decrefType
deriving DecidableEq, Repr

/-- Initial GC untracking (step 1), performed when the type is GC-tracked. -/
def gcPart (t : TypeInfo) : List TDStep :=
  if t.has_gc then [TDStep.untrack] else []

/-- Step 3: clearing of preexisting weak references. -/
def weakPart (t : TypeInfo) : List TDStep :=
  if t.tp_weaklist then [TDStep.clearWeakRefs] else []

/-- Steps 5-9: run after both hooks completed without resurrection: clear
weakrefs newly created by a hook (only when some hook exists and the type has a
weaklist), clear subclass slots level by level, clear the instance dict, destroy
the resource handle, free the object memory and drop the type reference. -/
def afterDel (t : TypeInfo) : List TDStep :=
  (if (t.tp_finalize || t.tp_del) && t.tp_weaklist then [TDStep.clearNewWeakRefs] else []) ++
  List.replicate t.slot_levels TDStep.clearSlots ++
  (if t.tp_dictoffset then [TDStep.clearDict] else []) ++
  [TDStep.destroyHandle, TDStep.freeMem, TDStep.decrefType]

/-- Steps 3-4 onward: clear weak references, then invoke the legacy destructor
hook if present; `delRes` records whether that hook resurrected the object
(`ob_refcnt > 0` after the call), in which case teardown stops. -/
def afterFinalize (t : TypeInfo) (delRes : Bool) : List TDStep :=
  weakPart t ++
  (if t.tp_del then
     [TDStep.track, TDStep.callDel] ++
     (if delRes then [] else TDStep.untrack :: afterDel t)
   else afterDel t)

/-- Lines 164-245 of the source: the ordered teardown actions of
`THPStorage_subclass_dealloc` after the preservation check, with `finRes`
(resp. `delRes`) recording whether the finalizer (resp. `tp_del`) hook
resurrected the object. -/
def teardownTrace (t : TypeInfo) (finRes delRes : Bool) : List TDStep :=
  gcPart t ++
  (if t.tp_finalize then
     [TDStep.track, TDStep.callFinalizer] ++
     (if finRes then [] else TDStep.untrack :: afterFinalize t delRes)
   else afterFinalize t delRes)

/-- Lines 157-245 of the source (`THPStorage_subclass_dealloc`): first attempt
preservation — on success (or on the internal assertion aborting the process)
no teardown step runs — otherwise perform the teardown sequence. -/
def THPStorage_subclass_dealloc (self : Wrapper) (s : BridgeState) (t : TypeInfo)
    (finRes delRes : Bool) : List TDStep :=
  match THPStorage_tryPreserve self s with
  | Except.ok (true, _, _) => []
  | Except.error _ => []
  | Except.ok (false, _, _) => teardownTrace t finRes delRes

/-- Any resurrection-aborted teardown trace is an initial segment of the full
(no-resurrection) trace: a later deallocation attempt performs the very same
sequence from step 1 onwards. -/
theorem teardownTrace_restart (t : TypeInfo) (finRes delRes : Bool) :
    ∃ rest, teardownTrace t finRes delRes ++ rest = teardownTrace t false false := by
  cases hf : t.tp_finalize <;> cases hd : t.tp_del <;> cases finRes <;> cases delRes
  · exact ⟨[], by simp [teardownTrace, afterFinalize, hf, hd]⟩
  · exact ⟨[], by simp [teardownTrace, afterFinalize, hf, hd]⟩
  · exact ⟨[], by simp [teardownTrace, afterFinalize, hf, hd]⟩
  · exact ⟨[], by simp [teardownTrace, afterFinalize, hf, hd]⟩
  · exact ⟨[], by simp [teardownTrace, afterFinalize, hf, hd]⟩
  · exact ⟨TDStep.untrack :: afterDel t, by simp [teardownTrace, afterFinalize, hf, hd]⟩
  · exact ⟨[], by simp [teardownTrace, afterFinalize, hf, hd]⟩
  · exact ⟨TDStep.untrack :: afterDel t, by simp [teardownTrace, afterFinalize, hf, hd]⟩
  · exact ⟨[], by simp [teardownTrace, afterFinalize, hf, hd]⟩
  · exact ⟨[], by simp [teardownTrace, afterFinalize, hf, hd]⟩
  · exact ⟨TDStep.untrack :: afterFinalize t false,
      by simp [teardownTrace, afterFinalize, hf, hd]⟩
  · exact ⟨TDStep.untrack :: afterFinalize t false,
      by simp [teardownTrace, afterFinalize, hf, hd]⟩
  · exact ⟨[], by simp [teardownTrace, afterFinalize, hf, hd]⟩
  · exact ⟨TDStep.untrack :: afterDel t, by simp [teardownTrace, afterFinalize, hf, hd]⟩
  · exact ⟨TDStep.untrack :: afterFinalize t false,
      by simp [teardownTrace, afterFinalize, hf, hd]⟩
  · exact ⟨TDStep.untrack :: afterFinalize t false,
      by simp [teardownTrace, afterFinalize, hf, hd]⟩

/-- C4: a resurrection detected at the finalizer hook (step 2) or at the legacy
destructor hook (step 4) short-circuits teardown immediately — no later step
(weakref clearing after the abort point, slot clearing, dict clearing,
resource-handle destruction, memory release, type release) appears in the
executed trace — and a later deallocation attempt restarts the sequence from
step 1: every aborted trace is an initial segment of the full trace, and the
no-resurrection attempt runs to completion. -/
theorem C4_resurrection_short_circuit (self : Wrapper) (s : BridgeState)
    (t : TypeInfo) (finRes delRes : Bool)
    (hp : THPStorage_isPreservable self s = false) :
    (t.tp_finalize = true →
      THPStorage_subclass_dealloc self s t true delRes =
        gcPart t ++ [TDStep.track, TDStep.callFinalizer] ∧
      TDStep.clearWeakRefs ∉ THPStorage_subclass_dealloc self s t true delRes ∧
      TDStep.clearNewWeakRefs ∉ THPStorage_subclass_dealloc self s t true delRes ∧
      TDStep.clearSlots ∉ THPStorage_subclass_dealloc self s t true delRes ∧
      TDStep.clearDict ∉ THPStorage_subclass_dealloc self s t true delRes ∧
      TDStep.destroyHandle ∉ THPStorage_subclass_dealloc self s t true delRes ∧
      TDStep.freeMem ∉ THPStorage_subclass_dealloc self s t true delRes) ∧
    (t.tp_del = true →
      THPStorage_subclass_dealloc self s t false true =
        gcPart t ++
        (if t.tp_finalize then
           [TDStep.track, TDStep.callFinalizer, TDStep.untrack] else []) ++
        weakPart t ++ [TDStep.track, TDStep.callDel] ∧
      TDStep.clearNewWeakRefs ∉ THPStorage_subclass_dealloc self s t false true ∧
      TDStep.clearSlots ∉ THPStorage_subclass_dealloc self s t false true ∧
      TDStep.clearDict ∉ THPStorage_subclass_dealloc self s t false true ∧
      TDStep.destroyHandle ∉ THPStorage_subclass_dealloc self s t false true ∧
      TDStep.freeMem ∉ THPStorage_subclass_dealloc self s t false true) ∧
    (∃ rest, THPStorage_subclass_dealloc self s t finRes delRes ++ rest =
        THPStorage_subclass_dealloc self s t false false) ∧
    TDStep.destroyHandle ∈ THPStorage_subclass_dealloc self s t false false ∧
    TDStep.freeMem ∈ THPStorage_subclass_dealloc self s t false false := by
  have hok : THPStorage_tryPreserve self s = Except.ok (false, self, s) := by
    simp [THPStorage_tryPreserve, hp]
  have hdl : ∀ fr dr, THPStorage_subclass_dealloc self s t fr dr =
      teardownTrace t fr dr := by
    intro fr dr
    simp [THPStorage_subclass_dealloc, hok]
  refine ⟨?_, ?_, ?_, ?_, ?_⟩
  · intro hfin
    simp only [hdl]
    refine ⟨by simp [teardownTrace, hfin], ?_⟩
    cases hgc : t.has_gc <;> simp [teardownTrace, hfin, gcPart, hgc]
  · intro hdel
    simp only [hdl]
    constructor
    · cases hfin : t.tp_finalize <;>
        simp [teardownTrace, afterFinalize, hfin, hdel]
    · cases hfin : t.tp_finalize <;> cases hgc : t.has_gc <;>
        cases hw : t.tp_weaklist <;>
        simp [teardownTrace, afterFinalize, hfin, hdel, gcPart, weakPart, hgc, hw]
  · simp only [hdl]
    exact teardownTrace_restart t finRes delRes
  · simp only [hdl]
    cases hfin : t.tp_finalize <;> cases hdel : t.tp_del <;>
      simp [teardownTrace, afterFinalize, afterDel, weakPart, hfin, hdel]
  · simp only [hdl]
    cases hfin : t.tp_finalize <;> cases hdel : t.tp_del <;>
      simp [teardownTrace, afterFinalize, afterDel, weakPart, hfin, hdel]

/-- Concrete fully featured subclass type for the C4 witness. -/
def tC4 : TypeInfo :=
  { has_gc := true, tp_finalize := true, tp_del := true,
    tp_weaklist := true, tp_dictoffset := true, slot_levels := 1 }

/-- Borrowed (hence non-preservable) wrapper for the C4 witness. -/
def wC4 : Wrapper :=
  { wid := 5, ty := 1, handle := Handle.borrowed, refcnt := 0 }

/-- State for the C4 witness. -/
def sC4 : BridgeState :=
  { use_count := 1, slotRef := SlotRef.live wC4, owns_pyobj := true, nextId := 6 }

/-- Witness for C4 at the concrete non-preservable wrapper `wC4`. -/
theorem C4_resurrection_short_circuit_witness :
    THPStorage_isPreservable wC4 sC4 = false ∧
    ((tC4.tp_finalize = true →
      THPStorage_subclass_dealloc wC4 sC4 tC4 true false =
        gcPart tC4 ++ [TDStep.track, TDStep.callFinalizer] ∧
      TDStep.clearWeakRefs ∉ THPStorage_subclass_dealloc wC4 sC4 tC4 true false ∧
      TDStep.clearNewWeakRefs ∉ THPStorage_subclass_dealloc wC4 sC4 tC4 true false ∧
      TDStep.clearSlots ∉ THPStorage_subclass_dealloc wC4 sC4 tC4 true false ∧
      TDStep.clearDict ∉ THPStorage_subclass_dealloc wC4 sC4 tC4 true false ∧
      TDStep.destroyHandle ∉ THPStorage_subclass_dealloc wC4 sC4 tC4 true false ∧
      TDStep.freeMem ∉ THPStorage_subclass_dealloc wC4 sC4 tC4 true false) ∧
    (tC4.tp_del = true →
      THPStorage_subclass_dealloc wC4 sC4 tC4 false true =
        gcPart tC4 ++
        (if tC4.tp_finalize then
           [TDStep.track, TDStep.callFinalizer, TDStep.untrack] else []) ++
        weakPart tC4 ++ [TDStep.track, TDStep.callDel] ∧
      TDStep.clearNewWeakRefs ∉ THPStorage_subclass_dealloc wC4 sC4 tC4 false true ∧
      TDStep.clearSlots ∉ THPStorage_subclass_dealloc wC4 sC4 tC4 false true ∧
      TDStep.clearDict ∉ THPStorage_subclass_dealloc wC4 sC4 tC4 false true ∧
      TDStep.destroyHandle ∉ THPStorage_subclass_dealloc wC4 sC4 tC4 false true ∧
      TDStep.freeMem ∉ THPStorage_subclass_dealloc wC4 sC4 tC4 false true) ∧
    (∃ rest, THPStorage_subclass_dealloc wC4 sC4 tC4 true false ++ rest =
        THPStorage_subclass_dealloc wC4 sC4 tC4 false false) ∧
    TDStep.destroyHandle ∈ THPStorage_subclass_dealloc wC4 sC4 tC4 false false ∧
    TDStep.freeMem ∈ THPStorage_subclass_dealloc wC4 sC4 tC4 false false) :=
  ⟨rfl, C4_resurrection_short_circuit wC4 sC4 tC4 true false rfl⟩

/-- System state of a resource over time: still alive (with its bridge state)
or destroyed (refcount reached zero; the slot dies with the resource). -/
inductive SysState where
  | dead
  | live (s : BridgeState)
deriving DecidableEq, Repr

/-- One when the slot's live wrapper holds an Owned resource handle (its
`cdata` is one of the `use_count` strong references), else zero. -/
def ownedWrapperCount (s : BridgeState) : Nat :=
  match s.slotRef with
  | SlotRef.live w => if w.handle = Handle.owned then 1 else 0
  | _ => 0

/-- Native strong references held outside the wrapper's own `cdata` — the
handles other code could move into `wrap` or release. -/
def externalHolders (s : BridgeState) : Nat :=
  s.use_count - ownedWrapperCount s

/-- Observable operations on a resource with (or acquiring) a live wrapper:
calling `wrap` (a holder moves a handle in), the host dropping one wrapper
reference (invoking deallocation — and hence the preservation protocol — when
the count reaches zero), and native code acquiring or releasing resource
handles. -/
inductive Op where
  | wrap
  | releaseWrapper
  | increfResource
  | decrefResource
deriving DecidableEq, Repr

/-- The deallocation attempt entered when the host drops the wrapper's last
reference (`tp_dealloc`): `THPStorage_tryPreserve` on the slot's wrapper with
its host count at zero; on preservation the wrapper survives dormant, otherwise
teardown destroys the wrapper — an Owned `cdata` releases its resource
reference, destroying the resource itself when that was the last one. -/
def deallocStep (s : BridgeState) (w : Wrapper) : SysState :=
  match THPStorage_tryPreserve { w with refcnt := w.refcnt - 1 }
      { s with slotRef := SlotRef.live { w with refcnt := w.refcnt - 1 } } with
  | Except.ok (true, _, s') => SysState.live s'
  | Except.ok (false, _, _) =>
      if w.handle = Handle.owned then
        if s.use_count ≤ 1 then SysState.dead
        else SysState.live { s with slotRef := SlotRef.taggedNull,
                                    owns_pyobj := false,
                                    use_count := s.use_count - 1 }
      else SysState.live { s with slotRef := SlotRef.taggedNull, owns_pyobj := false }
  | Except.error _ => SysState.live s

/-- One machine step.  Guards express what the respective actor is able to do:
`wrap` and `decrefResource` need a native handle held outside the wrapper
(`externalHolders ≥ 1`), and the host can only drop wrapper references it holds
(all but the slot's artificial one while `owns_pyobj` is set). -/
def stepOp (env : TypeEnv) (o : Op) (st : SysState) : SysState :=
  match st with
  | SysState.dead => SysState.dead
  | SysState.live s =>
    match o with
    | Op.increfResource => SysState.live { s with use_count := s.use_count + 1 }
    | Op.decrefResource =>
        if 1 ≤ externalHolders s then
          if s.use_count = 1 then SysState.dead
          else SysState.live { s with use_count := s.use_count - 1 }
        else SysState.live s
    | Op.wrap =>
        if 1 ≤ externalHolders s then
          match THPStorage_Wrap env s with
          | WrapResult.ok _ s' => SysState.live s'
          | WrapResult.err _ => SysState.live s
        else SysState.live s
    | Op.releaseWrapper =>
        match s.slotRef with
        | SlotRef.live w =>
            if s.owns_pyobj ∧ w.refcnt ≤ 1 then SysState.live s
            else if 1 < w.refcnt then
              SysState.live { s with slotRef := SlotRef.live { w with refcnt := w.refcnt - 1 } }
            else deallocStep s w
        | _ => SysState.live s

/-- Run a sequence of operations. -/
def runOps (env : TypeEnv) (l : List Op) (st : SysState) : SysState :=
  l.foldl (fun acc o => stepOp env o acc) st

/-- Initial state: a freshly created resource held by one native handle, slot
uninitialized, no ownership flag. -/
def initSys : SysState :=
  SysState.live
    { use_count := 1, slotRef := SlotRef.untagged, owns_pyobj := false, nextId := 0 }

/-- Invariant I2 (ownership exclusivity): while a live wrapper exists, exactly
one of (wrapper's handle is Owned) and (slot's `owns_pyobj` flag) holds; with
no live wrapper the flag is clear. -/
def ownershipExclusive : SysState → Prop
  | SysState.dead => True
  | SysState.live s =>
    match s.slotRef with
    | SlotRef.live w => (w.handle = Handle.owned ↔ s.owns_pyobj = false)
    | _ => s.owns_pyobj = false

/-- Every machine step preserves ownership exclusivity. -/
theorem ownershipExclusive_step (env : TypeEnv) (o : Op) (st : SysState)
    (h : ownershipExclusive st) : ownershipExclusive (stepOp env o st) := by
  cases st with
  | dead => cases o <;> simpa [stepOp] using h
  | live s =>
    cases o with
    | increfResource =>
      cases hs : s.slotRef <;> simp_all [stepOp, ownershipExclusive, hs]
    | decrefResource =>
      cases hs : s.slotRef <;>
        simp_all [stepOp, ownershipExclusive, hs] <;>
        split_ifs <;> simp_all [ownershipExclusive, hs]
    | wrap =>
      cases hs : s.slotRef with
      | live w =>
        cases hown : s.owns_pyobj <;>
          simp_all [stepOp, ownershipExclusive, hs, THPStorage_Wrap, hown] <;>
          split_ifs <;> simp_all [ownershipExclusive]
      | untagged =>
        simp_all [stepOp, ownershipExclusive, hs, THPStorage_Wrap, wrapFresh]
        split_ifs <;> simp_all [ownershipExclusive, newWrapperAlloc, hs]
      | taggedNull =>
        simp_all [stepOp, ownershipExclusive, hs, THPStorage_Wrap, wrapFresh]
        split_ifs <;> simp_all [ownershipExclusive, newWrapperAlloc, hs]
    | releaseWrapper =>
      cases hs : s.slotRef with
      | live w =>
        cases hh : w.handle <;> cases hown : s.owns_pyobj <;>
          simp_all [stepOp, ownershipExclusive, hs, deallocStep,
            THPStorage_tryPreserve, THPStorage_isPreservable, slotHolds, hh, hown] <;>
          split_ifs <;>
          simp_all [ownershipExclusive]
      | untagged => simp_all [stepOp, ownershipExclusive, hs]
      | taggedNull => simp_all [stepOp, ownershipExclusive, hs]

/-- Ownership exclusivity holds along any run from an exclusive state. -/
theorem ownershipExclusive_runOps (env : TypeEnv) (l : List Op) (st : SysState)
    (h : ownershipExclusive st) : ownershipExclusive (runOps env l st) := by
  induction l generalizing st with
  | nil => simpa [runOps] using h
  | cons o l ih =>
    have : runOps env (o :: l) st = runOps env l (stepOp env o st) := rfl
    rw [this]
    exact ih _ (ownershipExclusive_step env o st h)

/-- C2: along every sequence of operations from a fresh resource, whenever a
live wrapper exists exactly one of (wrapper handle Owned) and (slot
`owns_pyobj`) holds; consequently whenever the preservation preconditions hold
for the slot's wrapper, `owns_pyobj` is false, so the internal assertion at the
start of `THPStorage_tryPreserve` cannot fire. -/
theorem C2_ownership_exclusivity (env : TypeEnv) (l : List Op) :
    ownershipExclusive (runOps env l initSys) ∧
    (∀ s w, runOps env l initSys = SysState.live s → s.slotRef = SlotRef.live w →
       THPStorage_isPreservable w s = true → s.owns_pyobj = false) := by
  have hinv : ownershipExclusive (runOps env l initSys) :=
    ownershipExclusive_runOps env l initSys (by simp [initSys, ownershipExclusive])
  refine ⟨hinv, ?_⟩
  intro s w hrun hslot hpres
  rw [hrun] at hinv
  have hhandle : w.handle = Handle.owned :=
    ((isPreservable_iff w s).mp hpres).1
  simpa [ownershipExclusive, hslot, hhandle] using hinv

/-- Final state reached in the C2 witness run. -/
def sC2w : BridgeState :=
  { use_count := 2,
    slotRef := SlotRef.live { wid := 0, ty := 1, handle := Handle.owned, refcnt := 1 },
    owns_pyobj := false, nextId := 1 }

/-- Slot wrapper of `sC2w`. -/
def wC2w : Wrapper :=
  { wid := 0, ty := 1, handle := Handle.owned, refcnt := 1 }

/-- Witness for C2: after a native incref and a `wrap`, the preservation
preconditions hold and `owns_pyobj` is indeed false. -/
theorem C2_ownership_exclusivity_witness :
    ownershipExclusive (runOps env0 [Op.increfResource, Op.wrap] initSys) ∧
    runOps env0 [Op.increfResource, Op.wrap] initSys = SysState.live sC2w ∧
    sC2w.slotRef = SlotRef.live wC2w ∧
    THPStorage_isPreservable wC2w sC2w = true ∧
    sC2w.owns_pyobj = false :=
  ⟨(C2_ownership_exclusivity env0 [Op.increfResource, Op.wrap]).1, rfl, rfl, rfl,
   (C2_ownership_exclusivity env0 [Op.increfResource, Op.wrap]).2 sC2w wC2w rfl rfl rfl⟩

/-- Errors of the byte-access protocol (`THPStorage_get` / `THPStorage_set`):
an out-of-range index as reported by the source (the message interpolates the
negativity-adjusted index and the length), a slice with unsupported step, a
zero step (rejected by `PySlice_GetIndicesEx` itself), and a non-integer value
passed to `set`. -/
inductive ByteAccessErr where
  | indexOutOfRange (index : Int) (length : Nat)
  | unsupportedStep (step : Int)
  | zeroStep
  | invalidValueType (tyname : String)
deriving DecidableEq, Repr

/-- Modelled from the spec: `storage_get` (torch/csrc, not under src/) reads the
byte stored at a valid position of the resource. -/
def storage_get (bytes : List Nat) (i : Nat) : Nat :=
  bytes.getD i 0

/-- Lines 398-417 of the source: the integer-index branch of `THPStorage_get`.
A negative index gets `nbytes` added; if the adjusted index is still negative
or is at least `nbytes`, an IndexError carrying the adjusted index and the
length is raised; otherwise the byte at the adjusted position is returned. -/
def THPStorage_get_int (bytes : List Nat) (index : Int) : Except ByteAccessErr Nat :=
  let nindex := if index < 0 then index + bytes.length else index
  if nindex < 0 ∨ (bytes.length : Int) ≤ nindex then
    Except.error (ByteAccessErr.indexOutOfRange nindex bytes.length)
  else
    Except.ok (storage_get bytes nindex.toNat)

/-- C8 counterexample: on a length-5 resource, `get(-7)` fails with an error
carrying index `-2` (the negativity-adjusted value `-7 + 5`), not the passed
index `-7`; the claim's "IndexOutOfRange carrying the index" does not hold for
indices below `-length`. -/
theorem C8_counterexample :
    THPStorage_get_int [1, 2, 3, 4, 5] (-7) =
      Except.error (ByteAccessErr.indexOutOfRange (-2) 5) ∧
    ((-2 : Int) ≠ (-7 : Int)) :=
  ⟨rfl, by decide⟩

/-- C8 (amended): for `-length ≤ i < 0`, `get` returns the byte at position
`length + i`; for `i` outside `[-length, length)`, `get` fails with
IndexOutOfRange carrying the negativity-adjusted index (`i + length` when
`i < 0`, else `i`) and the length. -/
theorem C8_amended_get_int (bytes : List Nat) (i : Int) :
    ((-(bytes.length : Int) ≤ i ∧ i < 0) →
      THPStorage_get_int bytes i =
        Except.ok (storage_get bytes (i + bytes.length).toNat)) ∧
    ((i < -(bytes.length : Int) ∨ (bytes.length : Int) ≤ i) →
      THPStorage_get_int bytes i =
        Except.error (ByteAccessErr.indexOutOfRange
          (if i < 0 then i + bytes.length else i) bytes.length)) := by
  constructor
  · rintro ⟨h1, h2⟩
    unfold THPStorage_get_int
    rw [if_pos h2, if_neg (by omega)]
  · intro h
    by_cases hi : i < 0
    · unfold THPStorage_get_int
      rw [if_pos hi, if_pos (by omega)]
    · unfold THPStorage_get_int
      rw [if_neg hi, if_pos (by omega)]

/-- Witness for the amended C8: the spec's own examples — on bytes
`[1,2,3,4,5]`, `get(-1)` returns `5` and `get(5)` fails carrying index 5 and
length 5. -/
theorem C8_amended_get_int_witness :
    ((-((5 : Nat) : Int) ≤ -1 ∧ (-1 : Int) < 0) ∧
      THPStorage_get_int [1, 2, 3, 4, 5] (-1) = Except.ok 5) ∧
    (((5 : Int) < -((5 : Nat) : Int) ∨ ((5 : Nat) : Int) ≤ 5) ∧
      THPStorage_get_int [1, 2, 3, 4, 5] 5 =
        Except.error (ByteAccessErr.indexOutOfRange 5 5)) :=
  ⟨⟨by decide,
    by simpa using (C8_amended_get_int [1, 2, 3, 4, 5] (-1)).1 (by decide)⟩,
   ⟨by decide,
    by simpa using (C8_amended_get_int [1, 2, 3, 4, 5] 5).2 (by decide)⟩⟩

/-- Model of the index clamping performed by `PySlice_GetIndicesEx` (external,
CPython) for a nonzero step: negative bounds get the length added and are then
clamped to the valid range, and the slice length is computed from the adjusted
bounds; returns (adjusted start, adjusted stop, slice length). -/
def pySliceAdjust (len : Nat) (start stop step : Int) : Int × Int × Nat :=
  let L : Int := len
  let start1 :=
    if start < 0 then (if start + L < 0 then (if step < 0 then -1 else 0) else start + L)
    else if L ≤ start then (if step < 0 then L - 1 else L) else start
  let stop1 :=
    if stop < 0 then (if stop + L < 0 then (if step < 0 then -1 else 0) else stop + L)
    else if L ≤ stop then (if step < 0 then L - 1 else L) else stop
  let slicelength : Int :=
    if 0 < step then (if start1 < stop1 then (stop1 - start1 - 1) / step + 1 else 0)
    else (if stop1 < start1 then (start1 - stop1 - 1) / (-step) + 1 else 0)
  (start1, stop1, slicelength.toNat)

/-- On in-range bounds with step 1, the clamping is the identity and the slice
length is `stop - start`. -/
theorem pySliceAdjust_step_one (len : Nat) (start stop : Int)
    (h0 : 0 ≤ start) (h1 : start ≤ stop) (h2 : stop ≤ (len : Int)) :
    pySliceAdjust len start stop 1 = (start, stop, (stop - start).toNat) := by
  unfold pySliceAdjust
  split_ifs <;> simp_all [Int.ediv_one, Prod.ext_iff] <;> omega

/-- Host values handed to the byte protocols: integers and (as a stand-in for
any non-integer object) strings. -/
inductive PyVal where
  | int (n : Int)
  | str (s : String)
deriving DecidableEq, Repr

/-- `THPUtils_typename` — the `tp_name` of a value's type. -/
def THPUtils_typename : PyVal → String
  | PyVal.int _ => "int"
  | PyVal.str _ => "str"

/-- `THPByteUtils_checkReal` — whether the value is of integer type. -/
def THPByteUtils_checkReal : PyVal → Bool
  | PyVal.int _ => true
  | PyVal.str _ => false

/-- Modelled from the spec: `THPByteUtils_unpackReal` (torch/csrc/utils.h, not
under src/) converts an element to a single byte value 0-255 or raises. -/
def THPByteUtils_unpackReal : PyVal → Except Unit Nat
  | PyVal.int n => if 0 ≤ n ∧ n ≤ 255 then Except.ok n.toNat else Except.error ()
  | PyVal.str _ => Except.error ()

/-- Modelled from the spec: `storage_set` (torch/csrc, not under src/) writes a
byte at a position; per the spec (§4.5) its out-of-range handling matches
`get`: negative indices count from the end and an out-of-range index fails with
IndexOutOfRange, writing nothing. -/
def storage_set (bytes : List Nat) (index : Int) (value : Nat) :
    Except ByteAccessErr (List Nat) :=
  let nindex := if index < 0 then index + bytes.length else index
  if nindex < 0 ∨ (bytes.length : Int) ≤ nindex then
    Except.error (ByteAccessErr.indexOutOfRange nindex bytes.length)
  else
    Except.ok (bytes.set nindex.toNat value)

/-- Index argument of `THPStorage_set`: an integer or a slice object. -/
inductive SetIndex where
  | intIdx (i : Int)
  | sliceIdx (start stop step : Int)
deriving DecidableEq, Repr

/-- Outcome of `THPStorage_set` as seen by the CPython runtime: the C return
code (0 success, -1 error), whether an exception indicator was set, and the
resulting buffer contents. -/
structure SetOutcome where
  retcode : Int
  errorSet : Option ByteAccessErr
  bytes : List Nat
deriving DecidableEq, Repr

/-- The assignment loop `for (; start < stop; start++) storage_set(...)` of the
slice branch, by remaining iteration count; a failing write stops the loop with
the bytes written so far kept (writes go straight to the buffer). -/
def setRangeAux : Nat → Nat → List Nat → Nat → List Nat × Option ByteAccessErr
  | 0, _, bytes, _ => (bytes, none)
  | k + 1, pos, bytes, v =>
      match storage_set bytes (pos : Int) v with
      | Except.error e => (bytes, some e)
      | Except.ok bytes1 => setRangeAux k (pos + 1) bytes1 v

/-- Lines 471-512 of the source (`THPStorage_set`): reject non-integer values;
an integer index is handed to `storage_set` unadjusted; a slice index goes
through `PySlice_GetIndicesEx` (zero step fails there with -1) and then — the
source's slip — a step other than 1 sets the error string but returns 0, the
success code, assigning nothing; a step-1 slice assigns the byte to every
position in the adjusted range. -/
def THPStorage_set_m (bytes : List Nat) (index : SetIndex) (value : PyVal) :
    SetOutcome :=
  if THPByteUtils_checkReal value = false then
    { retcode := -1,
      errorSet := some (ByteAccessErr.invalidValueType (THPUtils_typename value)),
      bytes := bytes }
  else
    match THPByteUtils_unpackReal value with
    | Except.error _ =>
        { retcode := -1,
          errorSet := some (ByteAccessErr.invalidValueType (THPUtils_typename value)),
          bytes := bytes }
    | Except.ok rvalue =>
      match index with
      | SetIndex.intIdx i =>
          match storage_set bytes i rvalue with
          | Except.ok bytes1 => { retcode := 0, errorSet := none, bytes := bytes1 }
          | Except.error e => { retcode := -1, errorSet := some e, bytes := bytes }
      | SetIndex.sliceIdx start stop step =>
          if step = 0 then
            { retcode := -1, errorSet := some ByteAccessErr.zeroStep, bytes := bytes }
          else
            let a := pySliceAdjust bytes.length start stop step
            if step = 1 then
              let r := setRangeAux (a.2.1 - a.1).toNat a.1.toNat bytes rvalue
              { retcode := if r.2.isSome then -1 else 0, errorSet := r.2, bytes := r.1 }
            else
              { retcode := 0,
                errorSet := some (ByteAccessErr.unsupportedStep step),
                bytes := bytes }

/-- C9: `set` with an integer index behaves as `get` does — a negative in-range
index writes the byte at position `length + i`, and an out-of-range index fails
(return code -1) with the identical IndexOutOfRange error `get` produces, with
no byte written. -/
theorem C9_set_int_matches_get (bytes : List Nat) (i : Int) (n : Int)
    (hn : 0 ≤ n ∧ n ≤ 255) :
    ((-(bytes.length : Int) ≤ i ∧ i < 0) →
      THPStorage_set_m bytes (SetIndex.intIdx i) (PyVal.int n) =
        { retcode := 0, errorSet := none,
          bytes := bytes.set (i + bytes.length).toNat n.toNat }) ∧
    ((i < -(bytes.length : Int) ∨ (bytes.length : Int) ≤ i) →
      THPStorage_set_m bytes (SetIndex.intIdx i) (PyVal.int n) =
        { retcode := -1,
          errorSet := some (ByteAccessErr.indexOutOfRange
            (if i < 0 then i + bytes.length else i) bytes.length),
          bytes := bytes } ∧
      THPStorage_get_int bytes i =
        Except.error (ByteAccessErr.indexOutOfRange
          (if i < 0 then i + bytes.length else i) bytes.length)) := by
  have hunpack : THPByteUtils_unpackReal (PyVal.int n) = Except.ok n.toNat := by
    simp [THPByteUtils_unpackReal, hn.1, hn.2]
  constructor
  · rintro ⟨h1, h2⟩
    have hset : storage_set bytes i n.toNat =
        Except.ok (bytes.set (i + bytes.length).toNat n.toNat) := by
      unfold storage_set
      rw [if_pos h2, if_neg (by omega)]
    simp [THPStorage_set_m, THPByteUtils_checkReal, hunpack, hset]
  · intro h
    have hset : storage_set bytes i n.toNat =
        Except.error (ByteAccessErr.indexOutOfRange
          (if i < 0 then i + bytes.length else i) bytes.length) := by
      by_cases hi : i < 0
      · unfold storage_set
        rw [if_pos hi, if_pos (by omega)]
      · unfold storage_set
        rw [if_neg hi, if_pos (by omega)]
    refine ⟨by simp [THPStorage_set_m, THPByteUtils_checkReal, hunpack, hset],
      (C8_amended_get_int bytes i).2 h⟩

/-- Witness for C9: on bytes `[1,2,3,4,5]`, `set(-1, 9)` writes position 4 and
`set(5, 9)` fails exactly as `get(5)` does, writing nothing. -/
theorem C9_set_int_matches_get_witness :
    ((0 : Int) ≤ 9 ∧ (9 : Int) ≤ 255) ∧
    THPStorage_set_m [1, 2, 3, 4, 5] (SetIndex.intIdx (-1)) (PyVal.int 9) =
      { retcode := 0, errorSet := none, bytes := [1, 2, 3, 4, 9] } ∧
    THPStorage_set_m [1, 2, 3, 4, 5] (SetIndex.intIdx 5) (PyVal.int 9) =
      { retcode := -1,
        errorSet := some (ByteAccessErr.indexOutOfRange 5 5),
        bytes := [1, 2, 3, 4, 5] } ∧
    THPStorage_get_int [1, 2, 3, 4, 5] 5 =
      Except.error (ByteAccessErr.indexOutOfRange 5 5) :=
  ⟨by decide,
   by simpa using
     (C9_set_int_matches_get [1, 2, 3, 4, 5] (-1) 9 (by decide)).1 (by decide),
   by simpa using
     ((C9_set_int_matches_get [1, 2, 3, 4, 5] 5 9 (by decide)).2 (by decide)).1,
   by simpa using
     ((C9_set_int_matches_get [1, 2, 3, 4, 5] 5 9 (by decide)).2 (by decide)).2⟩

/-- C10 (the source's slip, evaluated at the failing input): `set` with a
step-2 slice sets the UnsupportedStep error indicator yet returns 0 — the
success code, not an error result — while assigning no byte; the integer-index
error path of the very same function returns -1, and `set` with a step-1 slice
performs the spec's example assignment. -/
theorem C10_set_slice_step_returns_success :
    THPStorage_set_m [1, 2, 3, 4, 5] (SetIndex.sliceIdx 0 5 2) (PyVal.int 9) =
      { retcode := 0,
        errorSet := some (ByteAccessErr.unsupportedStep 2),
        bytes := [1, 2, 3, 4, 5] } ∧
    (THPStorage_set_m [1, 2, 3, 4, 5] (SetIndex.intIdx 7) (PyVal.int 9)).retcode = -1 ∧
    THPStorage_set_m [1, 2, 3, 4, 5] (SetIndex.sliceIdx 1 3 1) (PyVal.int 9) =
      { retcode := 0, errorSet := none, bytes := [1, 9, 9, 4, 5] } :=
  ⟨rfl, rfl, rfl⟩

/-- Release action attached to a `StorageImpl`'s data pointer: a root resource
frees its buffer through its allocator; a slice's deleter only releases the
strong reference taken on the parent `StorageImpl`. -/
inductive ReleaseAction where
  | freeBuffer
  | decrefParent
deriving DecidableEq, Repr

/-- A native resource (`c10::StorageImpl`) for the slice protocol: byte length,
the identity of the underlying buffer plus the view's offset into it (a slice
aliases its parent's buffer), resizability, and the release action of its data
pointer. -/
structure StorageImplM where
  nbytes : Nat
  bufId : Nat
  offset : Nat
  resizable : Bool
  release : ReleaseAction
deriving DecidableEq, Repr

/-- Lines 419-461 of the source: the slice branch of `THPStorage_get`.
`PySlice_GetIndicesEx` adjusts the bounds (a zero step fails there); a step
other than 1 is rejected; otherwise the parent impl's refcount is incremented
(`c10::raw::intrusive_ptr::incref`) and a new non-resizable impl of length
`slicelength` is built whose data pointer aliases the parent's buffer at the
adjusted start and whose deleter decrefs the parent. -/
def THPStorage_get_slice (r : StorageImplM) (rc : Nat) (start stop step : Int) :
    Except ByteAccessErr (StorageImplM × Nat) :=
  if step = 0 then Except.error ByteAccessErr.zeroStep
  else
    let a := pySliceAdjust r.nbytes start stop step
    if step = 1 then
      Except.ok
        ({ nbytes := a.2.2, bufId := r.bufId, offset := r.offset + a.1.toNat,
           resizable := false, release := ReleaseAction.decrefParent }, rc + 1)
    else Except.error (ByteAccessErr.unsupportedStep step)

/-- Effect of running a release action against the parent's refcount: the
slice deleter decrements it by one and frees no memory itself; an allocator
release frees the buffer. -/
def runRelease (act : ReleaseAction) (parentRc : Nat) : Nat × Bool :=
  match act with
  | ReleaseAction.decrefParent => (parentRc - 1, false)
  | ReleaseAction.freeBuffer => (parentRc, true)

/-- Parent refcount accounting over a slice's lifetime: the parent's current
refcount and whether the slice is still alive (its deleter not yet run). -/
structure SliceLife where
  rc : Nat
  alive : Bool
deriving DecidableEq, Repr

/-- Events affecting the parent's refcount: some other holder releasing its own
reference (possible only while one exists beyond the slice's), and the slice
being destroyed, running its deleter. -/
inductive SliceOp where
  | otherRelease
  | sliceRelease
deriving DecidableEq, Repr

/-- One accounting step. -/
def sliceStep : SliceOp → SliceLife → SliceLife
  | SliceOp.otherRelease, st =>
      if (if st.alive then 1 else 0) < st.rc then { st with rc := st.rc - 1 } else st
  | SliceOp.sliceRelease, st =>
      if st.alive then
        { rc := (runRelease ReleaseAction.decrefParent st.rc).1, alive := false }
      else st

/-- Run a sequence of refcount events. -/
def sliceRun (l : List SliceOp) (st : SliceLife) : SliceLife :=
  l.foldl (fun acc o => sliceStep o acc) st

/-- While the slice is alive the parent's refcount stays at least one. -/
theorem sliceLife_invariant (l : List SliceOp) (st : SliceLife)
    (h : st.alive = true → 1 ≤ st.rc) :
    (sliceRun l st).alive = true → 1 ≤ (sliceRun l st).rc := by
  induction l generalizing st with
  | nil => simpa [sliceRun] using h
  | cons o l ih =>
    have hrun : sliceRun (o :: l) st = sliceRun l (sliceStep o st) := rfl
    rw [hrun]
    refine ih _ ?_
    cases o with
    | otherRelease =>
      simp only [sliceStep]
      split_ifs <;> intro ha
      all_goals first
        | omega
        | (simp_all; omega)
        | simp_all
    | sliceRelease =>
      simp only [sliceStep]
      split_ifs <;> intro ha
      all_goals simp_all

/-- C5: for valid bounds `0 ≤ start ≤ stop ≤ length` with step 1, slice
creation increments the parent's refcount by exactly one and builds a new
resource of length `stop - start`, non-resizable, aliasing the parent's buffer
at offset `start`, whose release action decrements the parent's refcount by
exactly one and frees nothing itself; and along any sequence of releases the
parent's refcount stays at least one while the slice is alive. -/
theorem C5_slice_view (r : StorageImplM) (rc : Nat) (start stop : Int)
    (h0 : 0 ≤ start) (h1 : start ≤ stop) (h2 : stop ≤ (r.nbytes : Int)) :
    ∃ rnew, THPStorage_get_slice r rc start stop 1 = Except.ok (rnew, rc + 1) ∧
      rnew.nbytes = (stop - start).toNat ∧
      rnew.resizable = false ∧
      rnew.bufId = r.bufId ∧
      rnew.offset = r.offset + start.toNat ∧
      rnew.release = ReleaseAction.decrefParent ∧
      runRelease rnew.release (rc + 1) = (rc, false) ∧
      (∀ l, (sliceRun l { rc := rc + 1, alive := true }).alive = true →
         1 ≤ (sliceRun l { rc := rc + 1, alive := true }).rc) := by
  have ha := pySliceAdjust_step_one r.nbytes start stop h0 h1 h2
  refine ⟨{ nbytes := (stop - start).toNat, bufId := r.bufId,
            offset := r.offset + start.toNat, resizable := false,
            release := ReleaseAction.decrefParent },
    ?_, rfl, rfl, rfl, rfl, rfl, ?_, ?_⟩
  · simp [THPStorage_get_slice, ha]
  · simp [runRelease]
  · intro l
    exact sliceLife_invariant l _ (fun _ => Nat.le_add_left 1 rc)

/-- Concrete parent resource for the C5 witness. -/
def rC5 : StorageImplM :=
  { nbytes := 5, bufId := 0, offset := 0, resizable := true,
    release := ReleaseAction.freeBuffer }

/-- Witness for C5: slicing `[1, 3)` of a 5-byte resource with one holder. -/
theorem C5_slice_view_witness :
    ((0 : Int) ≤ 1 ∧ (1 : Int) ≤ 3 ∧ (3 : Int) ≤ ((5 : Nat) : Int)) ∧
    (∃ rnew, THPStorage_get_slice rC5 1 1 3 1 = Except.ok (rnew, 1 + 1) ∧
      rnew.nbytes = ((3 : Int) - 1).toNat ∧
      rnew.resizable = false ∧
      rnew.bufId = rC5.bufId ∧
      rnew.offset = rC5.offset + (1 : Int).toNat ∧
      rnew.release = ReleaseAction.decrefParent ∧
      runRelease rnew.release (1 + 1) = (1, false) ∧
      (∀ l, (sliceRun l { rc := 1 + 1, alive := true }).alive = true →
         1 ≤ (sliceRun l { rc := 1 + 1, alive := true }).rc)) :=
  ⟨by decide,
   C5_slice_view rC5 1 1 3 (by decide) (by decide) (by decide)⟩

/-- Whether an element converts to a byte. -/
def byteOk (v : PyVal) : Bool :=
  match THPByteUtils_unpackReal v with
  | Except.ok _ => true
  | Except.error _ => false

/-- Error value reconstructed by the catch block of `THPStorage_pynew`'s
sequence branch (lines 376-384): the message interpolates the sequence's
typename and the current (first offending) item's typename — and nothing
else; in particular no index. -/
structure SeqConstructError where
  seq_typename : String
  item_typename : String
deriving DecidableEq, Repr

/-- The fill loop of the sequence branch (lines 365-375): convert each element
in order and append its byte; the first failing conversion throws, with `item`
holding the offending element. -/
def fillFromSeq : List PyVal → List Nat → Except PyVal (List Nat)
  | [], acc => Except.ok acc
  | v :: rest, acc =>
      match THPByteUtils_unpackReal v with
      | Except.ok b => fillFromSeq rest (acc ++ [b])
      | Except.error _ => Except.error v

/-- Lines 341-384 of the source: the sequence overload of `THPStorage_pynew`
(CPU allocator path).  A fresh resource of the sequence's length is allocated
and filled element by element; if some element fails to convert, the error
above is set and null is returned — the caller receives no resource. -/
def THPStorage_pynew_sequence (seq : List PyVal) : Except SeqConstructError (List Nat) :=
  match fillFromSeq seq [] with
  | Except.ok bytes => Except.ok bytes
  | Except.error item =>
      Except.error { seq_typename := ("list"), item_typename := THPUtils_typename item }

/-- The fill loop stops at the first non-convertible element, whatever was
accumulated before. -/
theorem fillFromSeq_first_bad (pre : List PyVal) (bad : PyVal) (rest : List PyVal)
    (acc : List Nat) (hpre : ∀ v ∈ pre, byteOk v = true) (hbad : byteOk bad = false) :
    fillFromSeq (pre ++ bad :: rest) acc = Except.error bad := by
  revert hpre
  induction pre generalizing acc with
  | nil =>
    intro _
    cases hu : THPByteUtils_unpackReal bad with
    | ok b =>
      rw [byteOk, hu] at hbad
      simp at hbad
    | error e =>
      simp [fillFromSeq, hu]
  | cons v pre ih =>
    intro hpre
    have hv : byteOk v = true := hpre v (by simp)
    cases hu : THPByteUtils_unpackReal v with
    | error e =>
      rw [byteOk, hu] at hv
      simp at hv
    | ok b =>
      have hstep : fillFromSeq ((v :: pre) ++ bad :: rest) acc =
          fillFromSeq (pre ++ bad :: rest) (acc ++ [b]) := by
        simp [fillFromSeq, hu]
      rw [hstep]
      exact ih (acc ++ [b]) (fun x hx => hpre x (by simp [hx]))

/-- C7 counterexample: two sequences whose first offending elements sit at
different indices (1 and 2) produce the very same error value — the error
reports the sequence's and the offending element's typenames but carries no
index, so it cannot report "the first offending element's index". -/
theorem C7_counterexample :
    THPStorage_pynew_sequence [PyVal.int 10, PyVal.str ("x"), PyVal.int 3] =
      THPStorage_pynew_sequence [PyVal.int 10, PyVal.int 3, PyVal.str ("y"), PyVal.int 4] ∧
    THPStorage_pynew_sequence [PyVal.int 10, PyVal.str ("x"), PyVal.int 3] =
      Except.error { seq_typename := ("list"), item_typename := ("str") } :=
  ⟨rfl, rfl⟩

/-- C7 (amended): a sequence containing a non-convertible element makes
construction fail with an error reporting the sequence's typename and the
actual type of the first offending element (but not its index), and no
resource — partial or otherwise — is returned to the caller. -/
theorem C7_amended_pynew_sequence (pre : List PyVal) (bad : PyVal) (rest : List PyVal)
    (hpre : ∀ v ∈ pre, byteOk v = true) (hbad : byteOk bad = false) :
    THPStorage_pynew_sequence (pre ++ bad :: rest) =
      Except.error { seq_typename := ("list"),
                     item_typename := THPUtils_typename bad } := by
  unfold THPStorage_pynew_sequence
  rw [fillFromSeq_first_bad pre bad rest [] hpre hbad]

/-- Witness for the amended C7 at the spec's example `new([10, "x", 3])`. -/
theorem C7_amended_pynew_sequence_witness :
    (∀ v ∈ [PyVal.int 10], byteOk v = true) ∧
    byteOk (PyVal.str ("x")) = false ∧
    THPStorage_pynew_sequence ([PyVal.int 10] ++ PyVal.str ("x") :: [PyVal.int 3]) =
      Except.error { seq_typename := ("list"),
                     item_typename := THPUtils_typename (PyVal.str ("x")) } :=
  ⟨by decide, by decide,
   C7_amended_pynew_sequence [PyVal.int 10] (PyVal.str ("x")) [PyVal.int 3]
     (by decide) (by decide)⟩
